import Mathlib

/-!
Verification of the streaming chat session and history-reconciliation engine
of the `yield` dashboard.  The definitions below are shallow embeddings of the
TypeScript source: the SSE frame parser and read loop (`lib/api/streaming`),
the chat Redux slice (`lib/store/slices/chatSlice`), the pagination guard and
the search dispatcher of the header / chat page components.  Raw protocol text
is modelled as `List Char` (the byte decoder resolves multi-byte boundaries,
so splitting at character granularity is the faithful abstraction), and the
network is modelled by the list of successful reads plus how the transport
ended.
-/

namespace Yield

/- ========================= SSE frame parser ========================= -/

/-- Result shape of `parseSSEChunk` (interface `StreamChunk` in the source). -/
structure StreamChunk where
  data : List Char
  done : Bool
  error : Option (List Char)
deriving DecidableEq, Repr

/-- Whitespace as recognised by JavaScript `String.prototype.trim` (restricted
to the ASCII range, which covers every protocol input). -/
def isJsWs (c : Char) : Bool :=
  c == ' ' || c == '\t' || c == '\n' || c == '\r' || c == '\x0b' || c == '\x0c'

/-- JavaScript `trim()` on a character list: drops whitespace at both ends. -/
def trimChars (s : List Char) : List Char :=
  ((s.dropWhile isJsWs).reverse.dropWhile isJsWs).reverse

/-- JavaScript `a.startsWith(p)`: `leadsWith p a` is true when `p` occurs at
the front of `a`. -/
def leadsWith : List Char → List Char → Bool
  | [], _ => true
  | _ :: _, [] => false
  | p :: ps, c :: cs => p == c && leadsWith ps cs

/-- The protocol marker `"data:"`. -/
def dataHeader : List Char := "data:".toList

/-- The success sentinel `"[DONE]"`. -/
def doneToken : List Char := "[DONE]".toList

/-- The failure sentinel marker `"[ERROR]:"`. -/
def errorHeader : List Char := "[ERROR]:".toList

/-- Fuel-indexed form of the `while (data.startsWith("data:"))` loop of
`parseSSEChunk`: each iteration drops the five marker characters and trims,
so the string length strictly decreases by at least five per iteration and
`s.length` units of fuel always suffice (`stripDataGo_fuel` below shows the
fuel bound is irrelevant once sufficient). -/
def stripDataGo : Nat → List Char → List Char
  | 0, s => s
  | fuel + 1, s =>
      if leadsWith dataHeader s then stripDataGo fuel (trimChars (List.drop 5 s)) else s

/-- The `while` loop of `parseSSEChunk`, run with its canonical fuel. -/
def stripData (s : List Char) : List Char := stripDataGo s.length s

/-- `parseSSEChunk` from `lib/api/streaming`: trims the raw line, strips every
repeated `data:` marker, then classifies the payload as the `[DONE]` sentinel,
an `[ERROR]:` sentinel (`replace` removes the first occurrence, which is the
front match, and the remainder is trimmed), or a plain chunk.  Every branch
returns a value, so the declared `null` case never occurs. -/
def parseSSEChunk (chunk : List Char) : Option StreamChunk :=
  let data := stripData (trimChars chunk)
  if data = doneToken then some { data := [], done := true, error := none }
  else if leadsWith errorHeader data then
    some { data := [], done := true, error := some (trimChars (List.drop 8 data)) }
  else some { data := data, done := false, error := none }

/- ========================= stream session ========================= -/

/-- One callback emitted by the stream session. -/
inductive StreamEvent where
  | chunk (text : List Char)
  | error (message : List Char)
  | complete
deriving DecidableEq, Repr

/-- Terminal callbacks of a session: `onError` and `onComplete`. -/
def isTerminalEvent : StreamEvent → Bool
  | StreamEvent.chunk _ => false
  | StreamEvent.error _ => true
  | StreamEvent.complete => true

/-- The buffer maintenance of the read loop: `buffer.split("\n\n")` followed by
`buffer = lines.pop() || ""`.  Returns the complete frame segments in order and
the unterminated remainder.  Matching consumes the leftmost delimiter first,
exactly as JavaScript `split` does. -/
def splitFrames : List Char → List (List Char) × List Char
  | [] => ([], [])
  | [c] => ([], [c])
  | c1 :: c2 :: rest =>
      if c1 = '\n' ∧ c2 = '\n' then
        let p := splitFrames rest
        ([] :: p.1, p.2)
      else
        match splitFrames (c2 :: rest) with
        | ([], buf) => ([], c1 :: buf)
        | (seg :: segs, buf) => ((c1 :: seg) :: segs, buf)

/-- The tail of the per-line branch of the read loop, after the error check has
fallen through: `if (chunk.done) ... if (chunk.data) ...`.  Returns the events
to emit and whether the session returned (halted). -/
def afterErrorCheck (c : StreamChunk) : List StreamEvent × Bool :=
  if c.done then ([StreamEvent.complete], true)
  else if c.data.isEmpty then ([], false)
  else ([StreamEvent.chunk (c.data ++ [' '])], false)

/-- One iteration of `for (const line of lines)` in the read loop.  An
`[ERROR]:` frame whose message is empty is falsy in `if (chunk.error)` and
falls through to the `done` check, which the source then treats as success. -/
def handleLine (line : List Char) : List StreamEvent × Bool :=
  if (trimChars line).isEmpty then ([], false)
  else
    match parseSSEChunk line with
    | none => ([], false)
    | some c =>
        match c.error with
        | some msg => if msg.isEmpty then afterErrorCheck c else ([StreamEvent.error msg], true)
        | none => afterErrorCheck c

/-- Processing of the complete segments of one read, with the early `return`
of the source on a terminal frame. -/
def processFrames : List (List Char) → List StreamEvent × Bool
  | [] => ([], false)
  | line :: rest =>
      let h := handleLine line
      if h.2 then (h.1, true)
      else
        let r := processFrames rest
        (h.1 ++ r.1, r.2)

/-- The end-of-stream handling: the leftover buffer is parsed best-effort and
only a plain, non-empty chunk is emitted (`chunk && !chunk.done && chunk.data`);
`onComplete` then fires unconditionally. -/
def flushBuffer (buffer : List Char) : List StreamEvent :=
  (if (trimChars buffer).isEmpty then []
   else
     match parseSSEChunk buffer with
     | none => []
     | some c =>
         if !c.done && !c.data.isEmpty then [StreamEvent.chunk (c.data ++ [' '])] else [])

/-- How the transport run ends: a clean end of stream (`done` from the reader)
or a thrown transport failure, whose message reaches the `catch` block.  The
non-2xx and null-body paths before the loop are the `failure` case with an
empty list of reads. -/
inductive ReadEnd where
  | eof
  | failure (message : List Char)
deriving DecidableEq, Repr

/-- The `while (true)` read loop of `streamChatResponse`: each read is appended
to the buffer, complete frames are processed (with early return on a terminal
frame), and the remainder is retained.  A transport failure after the listed
reads lands in the `catch` block, which invokes `onError`. -/
def readLoop : List Char → List (List Char) → ReadEnd → List StreamEvent
  | buffer, [], ReadEnd.eof => flushBuffer buffer ++ [StreamEvent.complete]
  | _, [], ReadEnd.failure msg => [StreamEvent.error msg]
  | buffer, value :: rest, ending =>
      let p := splitFrames (buffer ++ value)
      let pr := processFrames p.1
      if pr.2 then pr.1 else pr.1 ++ readLoop p.2 rest ending

/-- The observable callback sequence of one `streamChatResponse` session, as a
function of the successful reads and how the transport ended. -/
def streamChatResponse (reads : List (List Char)) (ending : ReadEnd) : List StreamEvent :=
  readLoop [] reads ending

/-- The input of the spec's Scenario 1. -/
def scenario1Input : List Char :=
  "data: Hello\n\ndata:  world\n\ndata: [DONE]\n\n".toList

/- ========================= chat timeline slice ========================= -/

/-- Message roles of the chat slice (the union type `"user" | "ai"`). -/
inductive Role where
  | user
  | ai
deriving DecidableEq, Repr

/-- Interface `Message` of the chat slice. -/
structure Message where
  id : String
  role : Role
  content : String
  timestamp : String
  createdAt : Option String
deriving DecidableEq, Repr

/-- Interface `ChatState` of the chat slice. -/
structure ChatState where
  messages : List Message
  inputValue : String
  loading : Bool
  error : Option String
  streaming : Bool
  currentStreamId : Option String
  historyLoading : Bool
  hasMoreHistory : Bool
  historyCursor : Option String
  initialHistoryLoaded : Bool
deriving DecidableEq, Repr

/-- The slice's `initialState`. -/
def initialChatState : ChatState :=
  { messages := [], inputValue := "", loading := false, error := none, streaming := false,
    currentStreamId := none, historyLoading := false, hasMoreHistory := true,
    historyCursor := none, initialHistoryLoaded := false }

/-- `CHAT_PAGE_SIZE`. -/
def CHAT_PAGE_SIZE : Nat := 20

/-- `formatTimestamp` renders a date as a locale hour-minute string; the
rendering is presentation-only and no claim inspects it, so it is modelled as
the identity on the date string. -/
def formatTimestamp (date : String) : String := date

/-- JavaScript `trim()` on Lean strings, via `trimChars`. -/
def jsTrim (s : String) : String := ⟨trimChars s.data⟩

/-- The `addMessage` reducer: appends. -/
def addMessage (m : Message) (s : ChatState) : ChatState :=
  { s with messages := s.messages ++ [m] }

/-- The `setInputValue` reducer. -/
def setInputValue (v : String) (s : ChatState) : ChatState :=
  { s with inputValue := v }

/-- The `clearMessages` reducer. -/
def clearMessages (s : ChatState) : ChatState :=
  { s with messages := [] }

/-- Overwrite the content of the first message whose id matches, exactly as
`findIndex` followed by an index assignment does. -/
def setContentAtFirstMatch (id content : String) : List Message → List Message
  | [] => []
  | m :: ms =>
      if m.id = id then { m with content := content } :: ms
      else m :: setContentAtFirstMatch id content ms

/-- The `addStreamingChunk` reducer: `content` is the full accumulation so
far; the first entry carrying the stream id is overwritten, otherwise a fresh
assistant entry is pushed (`now` models `new Date()`, used for the fresh
entry's timestamp and `createdAt`).  Marks the stream as active. -/
def addStreamingChunk (id content now : String) (s : ChatState) : ChatState :=
  { s with
    messages :=
      if s.messages.any (fun m => m.id = id) then
        setContentAtFirstMatch id content s.messages
      else
        s.messages ++
          [{ id := id, role := Role.ai, content := content,
             timestamp := formatTimestamp now, createdAt := some now }],
    streaming := true,
    currentStreamId := some id }

/-- The `setStreaming` reducer: clearing the flag also clears the active
stream id. -/
def setStreaming (b : Bool) (s : ChatState) : ChatState :=
  { s with streaming := b, currentStreamId := if b then s.currentStreamId else none }

/-- The `resetError` reducer. -/
def resetError (s : ChatState) : ChatState :=
  { s with error := none }

/-- The `setError` reducer. -/
def setError (e : String) (s : ChatState) : ChatState :=
  { s with error := some e }

/-- The `setMessages` reducer. -/
def setMessages (ms : List Message) (s : ChatState) : ChatState :=
  { s with messages := ms }

/-- One persisted row as returned by the history query; the id and the nested
message payload are loosely typed and may be absent. -/
structure HistoryRow where
  id : Option String
  msgType : Option String
  content : Option String
  createdAt : String
deriving DecidableEq, Repr

/-- `mapRowToMessage`; `now` stands for the `Date.now()` value used by the
fallback id.  `row.message?.content || ""` yields `""` when the content is
missing or empty, which `Option.getD` matches. -/
def mapRowToMessage (now : String) (row : HistoryRow) : Message :=
  { id := row.id.getD ("remote-" ++ now),
    role := if row.msgType = some "human" then Role.user else Role.ai,
    content := row.content.getD "",
    timestamp := formatTimestamp row.createdAt,
    createdAt := some row.createdAt }

/-- Interface `FetchHistoryResult`. -/
structure FetchHistoryResult where
  messages : List Message
  fetchedOlder : Bool
  hasMore : Bool
  cursor : Option String
deriving DecidableEq, Repr

/-- The fulfilled payload the `fetchChatHistory` thunk computes from the rows
the backend returned (ordered descending by `created_at`, at most one page):
rows are mapped and reversed into ascending order, `hasMore` records whether
the page was full, and the cursor is the oldest returned row's timestamp (or
the previous cursor when the page is empty). -/
def fetchChatHistoryPayload (now : String) (before : Option String)
    (rows : List HistoryRow) : FetchHistoryResult :=
  { messages := (rows.map (mapRowToMessage now)).reverse,
    fetchedOlder := before.isSome,
    hasMore := rows.length == CHAT_PAGE_SIZE,
    cursor :=
      match rows.getLast? with
      | some r => some r.createdAt
      | none => before }

/-- `fetchChatHistory.pending`. -/
def fetchChatHistoryPending (s : ChatState) : ChatState :=
  { s with historyLoading := true, error := none }

/-- `fetchChatHistory.fulfilled`: `hasMore` and the cursor come from the page;
an older page is prepended wholesale, an initial page replaces the timeline
when non-empty. -/
def fetchChatHistoryFulfilled (p : FetchHistoryResult) (s : ChatState) : ChatState :=
  let s1 := { s with historyLoading := false, hasMoreHistory := p.hasMore,
                     historyCursor := p.cursor }
  if p.fetchedOlder then { s1 with messages := p.messages ++ s1.messages }
  else
    { s1 with messages := if p.messages.isEmpty then s1.messages else p.messages,
              initialHistoryLoaded := true }

/-- `fetchChatHistory.rejected`: an empty payload string is falsy and falls
back to the default text. -/
def fetchChatHistoryRejected (payload : String) (s : ChatState) : ChatState :=
  { s with historyLoading := false,
           error := some (if payload = "" then "Failed to fetch history" else payload) }

/-- `sendMessage.pending`. -/
def sendMessagePending (s : ChatState) : ChatState :=
  { s with loading := true, error := none, streaming := true }

/-- `sendMessage.fulfilled`: the resolved message payload is ignored; only the
flags are reset. -/
def sendMessageFulfilled (s : ChatState) : ChatState :=
  { s with loading := false, streaming := false, currentStreamId := none }

/-- `sendMessage.rejected`: an empty payload string falls back to the default
text. -/
def sendMessageRejected (payload : String) (s : ChatState) : ChatState :=
  { s with loading := false, streaming := false, currentStreamId := none,
           error := some (if payload = "" then "Failed to send message" else payload) }

/-- `formatError` from `errorHandler.ts`, restricted to the values that reach
it from the chat slice: plain strings (the stream's error text, or a message
extracted from an `Error` and passed on as a string), which match neither
`instanceof` branch and fall through to the final fallback text. -/
def formatError (_err : String) : String := "An unknown error occurred"

/-- The state updates performed when the stream session reports an error: the
`onError` callback dispatches `setError` and `setStreaming false` and rejects
the promise, whose catch rejects the thunk with the formatted message, landing
in `sendMessage.rejected`. -/
def streamFailure (err : String) (s : ChatState) : ChatState :=
  sendMessageRejected (formatError err) (setStreaming false (setError (formatError err) s))

/-- The state updates performed when the stream session completes: the
`onComplete` callback dispatches `setStreaming false` and resolves the thunk,
so `sendMessage.fulfilled` runs; the trimmed `finalContent` is only persisted
and returned, never written back into the timeline. -/
def streamCompletion (s : ChatState) : ChatState :=
  sendMessageFulfilled (setStreaming false s)

/-- The guard of `fetchOlderMessagesRef` on the chat page: a fetch is skipped
while one is in flight, without more history, while history is loading, or
without a cursor.  The single-flight ref and the scroll container live outside
the store; at the instant a completed round starts, the former is false and
the latter present, so the in-store conditions form the guard. -/
def fetchOlderGuard (s : ChatState) : Bool :=
  s.hasMoreHistory && !s.historyLoading && s.historyCursor.isSome

/-- One completed guarded fetch-older round: pending followed by fulfilled
with the page computed from the returned rows; the single-flight guard makes
the round atomic with respect to other rounds. -/
def fetchOlderStep (now : String) (rows : List HistoryRow) (s : ChatState) : ChatState :=
  if fetchOlderGuard s then
    fetchChatHistoryFulfilled (fetchChatHistoryPayload now s.historyCursor rows)
      (fetchChatHistoryPending s)
  else s

/- ========================= search dispatcher ========================= -/

/-- The categorized result sets of `SearchResultsState`; the items themselves
play no role in any ordering or supersession claim and are modelled as
strings. -/
structure SearchResultsState where
  memories : List String
  files : List String
  smartInbox : List String
  chats : List String
deriving DecidableEq, Repr

/-- The header's search-related component state, `latestQueryRef` included. -/
structure HeaderSearchState where
  searchOpen : Bool
  loading : Bool
  error : Option String
  results : Option SearchResultsState
  latestQuery : String
deriving DecidableEq, Repr

/-- The initial header state (`latestQueryRef` starts as the empty string). -/
def initialHeaderSearchState : HeaderSearchState :=
  { searchOpen := false, loading := false, error := none, results := none, latestQuery := "" }

/-- Observable steps of the search pipeline: `issue term` is the synchronous
part of `fetchResults(term)` (abort the previous request, record the latest
term, raise the spinner, clear the error); a resolution event carries the term
its request was issued for and is guarded by the latest-term check.  Responses
of aborted requests are still representable as resolution events — the guard
alone must discard them, which only strengthens the supersession theorem. -/
inductive SearchEvent where
  | issue (term : String)
  | resolveOk (term : String) (data : SearchResultsState)
  | resolveErr (term : String)
deriving DecidableEq, Repr

/-- State transition of one search event (`fetchResults` in the header). -/
def searchStep (s : HeaderSearchState) : SearchEvent → HeaderSearchState
  | SearchEvent.issue term =>
      { s with latestQuery := term, loading := true, error := none }
  | SearchEvent.resolveOk term data =>
      if s.latestQuery = term then
        { s with results := some data, searchOpen := true, loading := false }
      else s
  | SearchEvent.resolveErr term =>
      if s.latestQuery = term then
        { s with error := some "Unable to fetch search results. Please try again.",
                 results := none, searchOpen := true, loading := false }
      else s

/-- Run of a sequence of search events from the initial state. -/
def runSearch (events : List SearchEvent) : HeaderSearchState :=
  events.foldl searchStep initialHeaderSearchState

/-- The term of the most recent issue event (the empty string before any). -/
def lastIssuedTerm (events : List SearchEvent) : String :=
  events.foldl
    (fun acc e =>
      match e with
      | SearchEvent.issue term => term
      | _ => acc) ""

/-- The query-change effect: below the minimum length it aborts any in-flight
request and stops the spinner, clears results and error only when the trimmed
query is empty, and schedules no request; otherwise it schedules a debounced
`fetchResults` for the trimmed term.  The scheduled term, if any, is returned
alongside the state. -/
def onQueryChange (query : String) (s : HeaderSearchState) :
    HeaderSearchState × Option String :=
  if (jsTrim query).length < 2 then
    ({ s with loading := false,
              results := if (jsTrim query).length = 0 then none else s.results,
              error := if (jsTrim query).length = 0 then none else s.error }, none)
  else (s, some (jsTrim query))

/- ==================== concrete sample values ==================== -/

/-- A sample optimistic user message. -/
def sampleUserMessage : Message :=
  { id := "user-100", role := Role.user, content := "hi", timestamp := "t",
    createdAt := some "2024-01-01T00:00:00Z" }

/-- The assistant entry created by one streamed chunk `"Hi "` under stream id
`"ai-101"`. -/
def draftAiMessage : Message :=
  { id := "ai-101", role := Role.ai, content := "Hi ",
    timestamp := formatTimestamp "2024-01-01T00:00:01Z",
    createdAt := some "2024-01-01T00:00:01Z" }

/-- A state mid-stream: pending send, optimistic insert, and one accumulated
chunk `"Hi "` under stream id `"ai-101"`. -/
def midStreamState : ChatState :=
  addStreamingChunk "ai-101" "Hi " "2024-01-01T00:00:01Z"
    (addMessage sampleUserMessage (sendMessagePending initialChatState))

/-- A sample persisted row with id `"m1"`. -/
def sampleRow : HistoryRow :=
  { id := some "m1", msgType := some "human", content := some "hello",
    createdAt := "2024-01-01T00:00:00Z" }

/-- A full page of twenty sample rows. -/
def fullPageRows : List HistoryRow := List.replicate 20 sampleRow

/-- A state ready for a guarded fetch-older round. -/
def cursorReadyState : ChatState :=
  { initialChatState with historyCursor := some "2024-01-02T00:00:00Z" }

/-- A state whose pagination sequence is exhausted. -/
def exhaustedState : ChatState :=
  { initialChatState with hasMoreHistory := false }

/-- Sample stale search results. -/
def staleResults : SearchResultsState :=
  { memories := ["m"], files := [], smartInbox := [], chats := [] }

/-- A header state still displaying results of an earlier query. -/
def withResultsState : HeaderSearchState :=
  { initialHeaderSearchState with results := some staleResults }

end Yield


namespace Yield

theorem splitFrames_nil_fst :
    ∀ (s : List Char), (splitFrames s).1 = [] → (splitFrames s).2 = s := by
  intro s
  induction s using splitFrames.induct with
  | case1 => intro _; rfl
  | case2 c => intro _; rfl
  | case3 c1 c2 rest h ih =>
      simp [splitFrames, if_pos h]
  | case4 c1 c2 rest h buf heq ih =>
      rw [heq] at ih
      have hb : buf = c2 :: rest := by simpa using ih rfl
      subst hb
      simp [splitFrames, if_neg h, heq]
  | case5 c1 c2 rest h seg segs buf heq ih =>
      simp [splitFrames, if_neg h, heq]

theorem splitFrames_append (a b : List Char) :
    splitFrames (a ++ b) =
      ((splitFrames a).1 ++ (splitFrames ((splitFrames a).2 ++ b)).1,
       (splitFrames ((splitFrames a).2 ++ b)).2) := by
  induction a using splitFrames.induct with
  | case1 => simp [splitFrames]
  | case2 c =>
      have h1 : splitFrames [c] = ([], [c]) := rfl
      simp [h1]
  | case3 c1 c2 rest h ih =>
      obtain ⟨h1, h2⟩ := h
      subst h1; subst h2
      simp only [List.cons_append, splitFrames, if_pos (And.intro rfl rfl)]
      simp [ih]
  | case4 c1 c2 rest h buf heq ih =>
      have hb : buf = c2 :: rest := by
        have := splitFrames_nil_fst (c2 :: rest) (by rw [heq])
        rw [heq] at this
        simpa using this
      subst hb
      simp [splitFrames, if_neg h, heq]
  | case5 c1 c2 rest h seg segs buf heq ih =>
      rw [heq] at ih
      simp only [List.cons_append] at ih ⊢
      simp only [splitFrames, if_neg h, heq]
      rw [ih]
      simp [splitFrames, if_neg h, heq]

end Yield

namespace Yield

theorem processFrames_append (xs ys : List (List Char)) :
    processFrames (xs ++ ys) =
      (if (processFrames xs).2 then processFrames xs
       else ((processFrames xs).1 ++ (processFrames ys).1, (processFrames ys).2)) := by
  induction xs with
  | nil => simp [processFrames]
  | cons x zs ih =>
      simp only [List.cons_append, processFrames]
      by_cases hx : (handleLine x).2
      · simp [hx]
      · by_cases h2 : (processFrames zs).2 <;>
          simp [hx, h2, ih, List.append_assoc]

theorem readLoop_merge (buffer v1 v2 : List Char) (rs : List (List Char)) (ending : ReadEnd) :
    readLoop buffer (v1 :: v2 :: rs) ending = readLoop buffer ((v1 ++ v2) :: rs) ending := by
  have hsp := splitFrames_append (buffer ++ v1) v2
  have hpf := processFrames_append (splitFrames (buffer ++ v1)).1
      (splitFrames ((splitFrames (buffer ++ v1)).2 ++ v2)).1
  simp only [readLoop, ← List.append_assoc, hsp, hpf]
  by_cases h1 : (processFrames (splitFrames (buffer ++ v1)).1).2
  · simp [h1]
  · by_cases h2 : (processFrames (splitFrames ((splitFrames (buffer ++ v1)).2 ++ v2)).1).2 <;>
      simp [h1, h2, List.append_assoc]

theorem readLoop_join :
    ∀ (rs : List (List Char)) (v buffer : List Char) (ending : ReadEnd),
      readLoop buffer (v :: rs) ending = readLoop buffer [v ++ rs.flatten] ending := by
  intro rs
  induction rs with
  | nil => intro v buffer ending; simp
  | cons w rs ih =>
      intro v buffer ending
      rw [readLoop_merge, ih]
      simp [List.append_assoc]

theorem streamChatResponse_flatten (reads : List (List Char)) (ending : ReadEnd) :
    streamChatResponse reads ending = streamChatResponse [reads.flatten] ending := by
  cases reads with
  | nil =>
      show readLoop [] [] ending = readLoop [] [[]] ending
      simp [readLoop, splitFrames, processFrames]
  | cons v rs =>
      show readLoop [] (v :: rs) ending = readLoop [] [(v :: rs).flatten] ending
      rw [List.flatten_cons]
      exact readLoop_join rs v [] ending

end Yield

namespace Yield

@[simp] theorem isTerminalEvent_chunk (t : List Char) :
    isTerminalEvent (StreamEvent.chunk t) = false := rfl

@[simp] theorem isTerminalEvent_error (m : List Char) :
    isTerminalEvent (StreamEvent.error m) = true := rfl

@[simp] theorem isTerminalEvent_complete : isTerminalEvent StreamEvent.complete = true := rfl

theorem handleLine_count (line : List Char) :
    (handleLine line).1.countP isTerminalEvent = (if (handleLine line).2 then 1 else 0) := by
  unfold handleLine afterErrorCheck
  repeat' split
  all_goals simp_all

theorem processFrames_count (lines : List (List Char)) :
    (processFrames lines).1.countP isTerminalEvent = (if (processFrames lines).2 then 1 else 0) := by
  induction lines with
  | nil => simp [processFrames]
  | cons l rest ih =>
      simp only [processFrames]
      have h := handleLine_count l
      by_cases hh : (handleLine l).2
      · simp only [hh, if_pos] at h ⊢
        simpa using h
      · simp only [hh, if_neg, Bool.false_eq_true, not_false_iff] at h ⊢
        simp [List.countP_append, h, ih]

theorem flushBuffer_count (buffer : List Char) :
    (flushBuffer buffer).countP isTerminalEvent = 0 := by
  unfold flushBuffer
  repeat' split
  all_goals simp

theorem readLoop_one_terminal :
    ∀ (reads : List (List Char)) (buffer : List Char) (ending : ReadEnd),
      (readLoop buffer reads ending).countP isTerminalEvent = 1 := by
  intro reads
  induction reads with
  | nil =>
      intro buffer ending
      cases ending <;>
        simp [readLoop, List.countP_append, flushBuffer_count, isTerminalEvent]
  | cons v rs ih =>
      intro buffer ending
      simp only [readLoop]
      have h := processFrames_count (splitFrames (buffer ++ v)).1
      by_cases hh : (processFrames (splitFrames (buffer ++ v)).1).2
      · simp only [hh, if_pos] at h ⊢
        simpa using h
      · simp only [hh, if_neg, Bool.false_eq_true, not_false_iff] at h ⊢
        simp [List.countP_append, h, ih]

end Yield

namespace Yield

theorem dropWhile_length_le {α : Type} (p : α → Bool) (l : List α) :
    (l.dropWhile p).length ≤ l.length :=
  (List.dropWhile_sublist p).length_le

theorem trimChars_length_le (s : List Char) : (trimChars s).length ≤ s.length := by
  unfold trimChars
  calc ((s.dropWhile isJsWs).reverse.dropWhile isJsWs).reverse.length
      ≤ (s.dropWhile isJsWs).reverse.length := by
        simpa using dropWhile_length_le isJsWs (s.dropWhile isJsWs).reverse
    _ ≤ s.length := by simpa using dropWhile_length_le isJsWs s

theorem leadsWith_length_le :
    ∀ (p s : List Char), leadsWith p s = true → p.length ≤ s.length := by
  intro p
  induction p with
  | nil => intro s _; simp
  | cons c cs ih =>
      intro s h
      cases s with
      | nil => simp [leadsWith] at h
      | cons d ds =>
          simp only [leadsWith, Bool.and_eq_true] at h
          simpa using ih ds h.2

theorem stripDataGo_fuel :
    ∀ (fuel : Nat) (s : List Char), s.length ≤ fuel →
      stripDataGo fuel s = stripDataGo s.length s := by
  intro fuel
  induction fuel using Nat.strong_induction_on with
  | _ fuel ih =>
      intro s hs
      match fuel, hs with
      | 0, hs =>
          interval_cases h : s.length
          · rfl
      | fuel + 1, hs =>
          by_cases hl : leadsWith dataHeader s = true
          · have h5 : 5 ≤ s.length := leadsWith_length_le dataHeader s hl
            have hlen : (trimChars (List.drop 5 s)).length ≤ s.length - 5 := by
              calc (trimChars (List.drop 5 s)).length ≤ (List.drop 5 s).length :=
                    trimChars_length_le _
                _ = s.length - 5 := by simp
            have hm : ∃ m, s.length = m + 1 := ⟨s.length - 1, by omega⟩
            obtain ⟨m, hmeq⟩ := hm
            rw [hmeq]
            simp only [stripDataGo, hl, if_pos]
            have h1 : stripDataGo fuel (trimChars (List.drop 5 s)) =
                stripDataGo (trimChars (List.drop 5 s)).length (trimChars (List.drop 5 s)) := by
              exact ih fuel (Nat.lt_succ_self fuel) _ (by omega)
            have h2 : stripDataGo m (trimChars (List.drop 5 s)) =
                stripDataGo (trimChars (List.drop 5 s)).length (trimChars (List.drop 5 s)) := by
              exact ih m (by omega) _ (by omega)
            rw [h1, h2]
          · simp only [stripDataGo, hl, if_neg]
            cases hmeq : s.length with
            | zero => rfl
            | succ m => simp [stripDataGo, hl]

theorem stripData_eq (s : List Char) :
    stripData s =
      (if leadsWith dataHeader s then stripData (trimChars (List.drop 5 s)) else s) := by
  unfold stripData
  by_cases hl : leadsWith dataHeader s = true
  · have h5 : 5 ≤ s.length := leadsWith_length_le dataHeader s hl
    have hlen : (trimChars (List.drop 5 s)).length ≤ s.length - 5 := by
      calc (trimChars (List.drop 5 s)).length ≤ (List.drop 5 s).length := trimChars_length_le _
        _ = s.length - 5 := by simp
    have hm : ∃ m, s.length = m + 1 := ⟨s.length - 1, by omega⟩
    obtain ⟨m, hmeq⟩ := hm
    rw [hmeq]
    simp only [stripDataGo, hl, if_pos]
    exact stripDataGo_fuel m _ (by omega)
  · simp only [Bool.not_eq_true] at hl
    cases hmeq : s.length with
    | zero => simp [stripDataGo, hl]
    | succ m => simp [stripDataGo, hl]

end Yield

namespace Yield

/-- C10: for every input string, `parseSSEChunk` returns a non-null
`StreamChunk`; the declared `null` case is unreachable, so the stream read
loop's null-check branch never takes the null path. -/
theorem parseSSEChunk_never_none (s : List Char) : (parseSSEChunk s).isSome = true := by
  unfold parseSSEChunk
  dsimp only
  repeat' split
  all_goals rfl

/-- C1: over any run of a single stream session ending in a Done frame, an
Error frame, a clean end of stream, or a transport failure, exactly one
terminal callback (`onError` or `onComplete`) fires, so the two are mutually
exclusive and each fires at most once.  The source offers no cancellation
handle, so the cancellation clause of the spec is vacuous. -/
theorem stream_session_exactly_one_terminal (reads : List (List Char)) (ending : ReadEnd) :
    (streamChatResponse reads ending).countP isTerminalEvent = 1 :=
  readLoop_one_terminal reads [] ending

/-- C2: the callback sequence of a stream session depends only on the
concatenation of the raw text delivered by the reads, not on where the read
boundaries fall. -/
theorem stream_chunk_boundary_independence (r1 r2 : List (List Char)) (ending : ReadEnd)
    (h : r1.flatten = r2.flatten) :
    streamChatResponse r1 ending = streamChatResponse r2 ending := by
  rw [streamChatResponse_flatten, streamChatResponse_flatten r2, h]

/-- Witness for C2 at a concrete splitting of one frame sequence. -/
theorem stream_chunk_boundary_independence_witness :
    (["data: Hi\n".toList, "\ndata: [DONE]\n\n".toList] : List (List Char)).flatten =
        (["data: Hi\n\ndata: [DONE]\n\n".toList] : List (List Char)).flatten ∧
      streamChatResponse ["data: Hi\n".toList, "\ndata: [DONE]\n\n".toList] ReadEnd.eof =
        streamChatResponse ["data: Hi\n\ndata: [DONE]\n\n".toList] ReadEnd.eof :=
  ⟨by decide,
   stream_chunk_boundary_independence ["data: Hi\n".toList, "\ndata: [DONE]\n\n".toList]
     ["data: Hi\n\ndata: [DONE]\n\n".toList] ReadEnd.eof (by decide)⟩

/-- Counterexample to C5: on the Scenario 1 input the second callback is
`onChunk("world ")`, not `onChunk(" world ")` — `parseSSEChunk` trims the
leading whitespace of the frame payload — so the claimed callback sequence is
not the emitted one. -/
theorem scenario1_claimed_sequence_false :
    streamChatResponse [scenario1Input] ReadEnd.eof ≠
      [StreamEvent.chunk "Hello ".toList, StreamEvent.chunk " world ".toList,
       StreamEvent.complete] := by decide

/-- C5 (amended): on the Scenario 1 input the emitted callback sequence is
exactly `onChunk("Hello ")`, `onChunk("world ")`, `onComplete()`, in that
order and nothing else. -/
theorem scenario1_callback_sequence :
    streamChatResponse [scenario1Input] ReadEnd.eof =
      [StreamEvent.chunk "Hello ".toList, StreamEvent.chunk "world ".toList,
       StreamEvent.complete] := by decide

end Yield

namespace Yield

/-- Counterexample to C3: merging an older page whose single row's id `"m1"`
is already in the timeline does not skip it — the prepend is wholesale and the
duplicate id survives, even though the pre-merge timeline had distinct ids. -/
theorem merge_overlapping_page_duplicates :
    ((setMessages [mapRowToMessage "0" sampleRow] initialChatState).messages.map
        Message.id).Nodup ∧
    ((fetchChatHistoryFulfilled
        (fetchChatHistoryPayload "0" (some "2024-01-02T00:00:00Z") [sampleRow])
        (setMessages [mapRowToMessage "0" sampleRow] initialChatState)).messages.map
        Message.id) = ["m1", "m1"] ∧
    ¬ ((fetchChatHistoryFulfilled
        (fetchChatHistoryPayload "0" (some "2024-01-02T00:00:00Z") [sampleRow])
        (setMessages [mapRowToMessage "0" sampleRow] initialChatState)).messages.map
        Message.id).Nodup := by decide

/-- C3 (amended): a fulfilled older page is prepended to the timeline
wholesale, with no id-based skipping; duplicate suppression rests solely on
the disjointness of pages produced by the strict `before` cursor, and merging
an overlapping page leaves duplicate ids in the timeline. -/
theorem merge_older_page_prepends_wholesale (p : FetchHistoryResult) (s : ChatState)
    (h : p.fetchedOlder = true) :
    (fetchChatHistoryFulfilled p s).messages = p.messages ++ s.messages := by
  simp [fetchChatHistoryFulfilled, h]

/-- Witness for the amended C3 at a concrete older page. -/
theorem merge_older_page_prepends_wholesale_witness :
    (fetchChatHistoryPayload "0" (some "c") [sampleRow]).fetchedOlder = true ∧
      (fetchChatHistoryFulfilled (fetchChatHistoryPayload "0" (some "c") [sampleRow])
          initialChatState).messages =
        (fetchChatHistoryPayload "0" (some "c") [sampleRow]).messages ++
          initialChatState.messages :=
  ⟨by decide,
   merge_older_page_prepends_wholesale (fetchChatHistoryPayload "0" (some "c") [sampleRow])
     initialChatState (by decide)⟩

/-- Counterexample to C6: after a failed stream the partially streamed
assistant message is still in the timeline — the state is not the pre-request
timeline plus the optimistic user message alone. -/
theorem failed_stream_retains_partial_assistant :
    (streamFailure "boom" midStreamState).messages =
        [sampleUserMessage, draftAiMessage] ∧
      (streamFailure "boom" midStreamState).messages ≠ [sampleUserMessage] := by decide

/-- C6 (amended): a failed stream leaves the message timeline exactly as it
was at failure time — the optimistic user message and any partially streamed
assistant message are both retained — while the loading and streaming flags
and the active-stream marker are reset and the error notice is set. -/
theorem stream_failure_preserves_timeline (err : String) (s : ChatState) :
    (streamFailure err s).messages = s.messages ∧
    (streamFailure err s).streaming = false ∧
    (streamFailure err s).currentStreamId = none ∧
    (streamFailure err s).loading = false ∧
    (streamFailure err s).error = some (formatError err) := by
  simp [streamFailure, sendMessageRejected, setStreaming, setError, formatError]

/-- Counterexample to C7: on completion the streamed assistant message keeps
the accumulated content `"Hi "` — it is not replaced by the trimmed canonical
text `"Hi"` that the thunk persists and returns. -/
theorem completion_keeps_untrimmed_content :
    ((streamCompletion midStreamState).messages.map Message.content) =
        [sampleUserMessage.content, "Hi "] ∧
      jsTrim "Hi " = "Hi" ∧ ("Hi " : String) ≠ "Hi" := by decide

/-- C7 (amended): completion — `onComplete` dispatching `setStreaming false`
followed by `sendMessage.fulfilled` — clears the active-stream marker and the
flags but leaves the timeline untouched: the assistant message keeps the
accumulated, untrimmed content, and the slice has no delivery-state field to
finalize. -/
theorem stream_completion_clears_marker (s : ChatState) :
    (streamCompletion s).messages = s.messages ∧
    (streamCompletion s).currentStreamId = none ∧
    (streamCompletion s).streaming = false ∧
    (streamCompletion s).loading = false := by
  simp [streamCompletion, sendMessageFulfilled, setStreaming]

theorem fold_fetchOlder_false (now : String) :
    ∀ (pages : List (List HistoryRow)) (s : ChatState), s.hasMoreHistory = false →
      (pages.foldl (fun st page => fetchOlderStep now page st) s).hasMoreHistory = false := by
  intro pages
  induction pages with
  | nil => intro s hm; simpa using hm
  | cons p ps ih =>
      intro s hm
      simp only [List.foldl_cons]
      exact ih _ (by simp [fetchOlderStep, fetchOlderGuard, hm])

/-- C8: across one guarded pagination sequence, after a completed round the
`hasMoreHistory` flag is true exactly when the returned page was full
(`CHAT_PAGE_SIZE` rows), and once false it never returns to true: the guard
skips every further round. -/
theorem hasMoreHistory_monotone (s : ChatState) (now : String) (rows : List HistoryRow)
    (pages : List (List HistoryRow)) :
    (fetchOlderGuard s = true →
      ((fetchOlderStep now rows s).hasMoreHistory = true ↔
        rows.length = CHAT_PAGE_SIZE)) ∧
    (s.hasMoreHistory = false →
      (pages.foldl (fun st page => fetchOlderStep now page st) s).hasMoreHistory = false) := by
  constructor
  · intro hg
    simp [fetchOlderStep, hg, fetchChatHistoryFulfilled, fetchChatHistoryPayload,
      fetchChatHistoryPending, apply_ite]
  · intro hm
    exact fold_fetchOlder_false now pages s hm

/-- Witness for C8: a full page keeps `hasMoreHistory` true, and an exhausted
sequence stays exhausted across a further round. -/
theorem hasMoreHistory_monotone_witness :
    (((fetchOlderStep "0" fullPageRows cursorReadyState).hasMoreHistory = true) ↔
        fullPageRows.length = CHAT_PAGE_SIZE) ∧
      ([[sampleRow]].foldl (fun st page => fetchOlderStep "0" page st)
          exhaustedState).hasMoreHistory = false :=
  ⟨(hasMoreHistory_monotone cursorReadyState "0" fullPageRows []).1 (by decide),
   (hasMoreHistory_monotone exhaustedState "0" [] [[sampleRow]]).2 (by decide)⟩

theorem searchStep_latest (s : HeaderSearchState) (e : SearchEvent) :
    (searchStep s e).latestQuery =
      (match e with
       | SearchEvent.issue term => term
       | _ => s.latestQuery) := by
  cases e with
  | issue term => rfl
  | resolveOk term data =>
      simp only [searchStep]
      split
      · rfl
      · rfl
  | resolveErr term =>
      simp only [searchStep]
      split
      · rfl
      · rfl

theorem runSearch_latest (events : List SearchEvent) :
    (runSearch events).latestQuery = lastIssuedTerm events := by
  unfold runSearch lastIssuedTerm
  suffices h : ∀ (s : HeaderSearchState),
      (events.foldl searchStep s).latestQuery =
        events.foldl
          (fun acc e =>
            match e with
            | SearchEvent.issue term => term
            | _ => acc) s.latestQuery from h initialHeaderSearchState
  induction events with
  | nil => intro s; rfl
  | cons e es ih =>
      intro s
      simp only [List.foldl_cons]
      rw [ih, searchStep_latest]

/-- C4: a search resolution that changes the displayed results always carries
the most recently issued query term; a stale response — one whose term differs
from the latest issue — leaves the displayed results untouched, regardless of
arrival order. -/
theorem search_supersession (events : List SearchEvent) (term : String)
    (data : SearchResultsState)
    (h : (searchStep (runSearch events) (SearchEvent.resolveOk term data)).results ≠
      (runSearch events).results) :
    term = lastIssuedTerm events := by
  by_cases hg : (runSearch events).latestQuery = term
  · rw [← runSearch_latest]
    exact hg.symm
  · exact absurd (by simp [searchStep, hg]) h

/-- Witness for C4 at a concrete run: the resolution for the latest term
applies, and that term is the most recently issued one. -/
theorem search_supersession_witness :
    ((searchStep (runSearch [SearchEvent.issue "ab"])
          (SearchEvent.resolveOk "ab" staleResults)).results ≠
        (runSearch [SearchEvent.issue "ab"]).results) ∧
      "ab" = lastIssuedTerm [SearchEvent.issue "ab"] :=
  ⟨by decide, search_supersession [SearchEvent.issue "ab"] "ab" staleResults (by decide)⟩

/-- Counterexample to C9: a one-character query (trimmed length 1, below the
minimum of 2) issues no request but does not clear the displayed results. -/
theorem short_query_keeps_stale_results :
    (onQueryChange "a" withResultsState).2 = none ∧
      (onQueryChange "a" withResultsState).1.results = some staleResults := by decide

/-- C9 (amended): below the two-character minimum the dispatcher issues no
request and stops the spinner, but clears the displayed results and error only
when the trimmed query is empty; a one-character query keeps the previously
displayed results. -/
theorem short_query_no_request (q : String) (s : HeaderSearchState)
    (h : (jsTrim q).length < 2) :
    (onQueryChange q s).2 = none ∧
    (onQueryChange q s).1.results = (if (jsTrim q).length = 0 then none else s.results) ∧
    (onQueryChange q s).1.error = (if (jsTrim q).length = 0 then none else s.error) ∧
    (onQueryChange q s).1.loading = false := by
  unfold onQueryChange
  rw [if_pos h]
  exact ⟨rfl, rfl, rfl, rfl⟩

/-- Witness for the amended C9 at the one-character query. -/
theorem short_query_no_request_witness :
    ((jsTrim "a").length < 2) ∧
      ((onQueryChange "a" withResultsState).2 = none ∧
        (onQueryChange "a" withResultsState).1.results =
          (if (jsTrim "a").length = 0 then none else withResultsState.results) ∧
        (onQueryChange "a" withResultsState).1.error =
          (if (jsTrim "a").length = 0 then none else withResultsState.error) ∧
        (onQueryChange "a" withResultsState).1.loading = false) :=
  ⟨by decide, short_query_no_request "a" withResultsState (by decide)⟩

end Yield
